import Mathlib

/-!
Formal model of `src/macos/DoclingMenuBar/patches/sitecustomize.py`.

The script compiles a UUID regular expression (`TASK_ID_PATTERN`), wraps
callables so that a string return value fully matching the pattern is
echoed to standard output as `docling_task_id=<value>` (`_wrap_task_id`),
and best-effort patches the `process_url` / `process_file` attributes of
the optionally present `docling_serve.gradio_ui` module
(`_patch_gradio_ui`).

Python values are modelled by `PyVal`, exceptions by `PyErr` (recording
whether the raised object is an instance of `Exception`, the class the
`except Exception:` handler catches, as opposed to a bare `BaseException`
such as `KeyboardInterrupt`), callables by functions into `CallResult`
(stdout lines produced plus either a returned value or a raised error),
and the target module by a partial map from attribute names to attributes.
-/

/-- A Python runtime value, as far as the script can distinguish them:
`isinstance(result, str)` separates strings from everything else. -/
inductive PyVal where
  | str (s : String)
  | none
  | int (n : Int)
  | bool (b : Bool)
  | list (xs : List PyVal)
  | obj (tag : String)

/-- A raised Python exception. `isException` records whether the object is
an instance of `Exception`; `KeyboardInterrupt` and `SystemExit` derive
only from `BaseException`, so for them it is `false`. -/
structure PyErr where
  name : String
  isException : Bool
deriving DecidableEq, Repr

/-- Outcome of one call: the lines the call wrote to standard output, in
order, and either the returned value or the propagated exception. -/
structure CallResult where
  output : List String
  result : Except PyErr PyVal

/-- The character class `[0-9a-fA-F]` of `TASK_ID_PATTERN`. -/
def isHexDigitChar (c : Char) : Bool :=
  ('0' ≤ c && c ≤ '9') || ('a' ≤ c && c ≤ 'f') || ('A' ≤ c && c ≤ 'F')

/-- Consume exactly `n` characters of the class `[0-9a-fA-F]` (the regex
fragment `[0-9a-fA-F]{n}`), returning the remaining characters, or `none`
if the input starts with fewer than `n` such characters. -/
def consumeHex : Nat → List Char → Option (List Char)
  | 0, cs => some cs
  | _ + 1, [] => Option.none
  | n + 1, c :: cs => if isHexDigitChar c then consumeHex n cs else Option.none

/-- Consume one literal character (the regex fragment `-`). -/
def consumeLit (ch : Char) : List Char → Option (List Char)
  | [] => Option.none
  | c :: cs => if c = ch then some cs else Option.none

/-- `TASK_ID_PATTERN.fullmatch s` for the compiled pattern
`[0-9a-fA-F]{8}-[0-9a-fA-F]{4}-[0-9a-fA-F]{4}-[0-9a-fA-F]{4}-[0-9a-fA-F]{12}`:
the whole string must be consumed by the five hex groups and the four
literal hyphens. -/
def TASK_ID_PATTERN_fullmatch (s : String) : Bool :=
  ((((((((consumeHex 8 s.data).bind (consumeLit '-')).bind
      (consumeHex 4)).bind (consumeLit '-')).bind
      (consumeHex 4)).bind (consumeLit '-')).bind
      (consumeHex 4)).bind (consumeLit '-')).bind (consumeHex 12) == some []

/-- `_wrap_task_id(func)`: call `func`, and if the call returns (rather
than raises) a string fully matching `TASK_ID_PATTERN`, print
`docling_task_id=<result>`; the return value (or the raised exception)
is forwarded unchanged. The argument tuple `args` is passed through to
`func` as received. -/
def wrap_task_id {α : Type} (func : α → CallResult) : α → CallResult :=
  fun args =>
    let r := func args
    match r.result with
    | Except.error _ => r
    | Except.ok v =>
        match v with
        | PyVal.str s =>
            if TASK_ID_PATTERN_fullmatch s then
              { output := r.output ++ ["docling_task_id=" ++ s],
                result := Except.ok (PyVal.str s) }
            else r
        | _ => r

/-- An attribute of the target module: either a callable (modelled by its
call behaviour) or a non-callable value. -/
inductive Attr (α : Type) where
  | callable (f : α → CallResult)
  | value (v : PyVal)

/-- The `gradio_ui` module: a map from attribute names to attributes;
`none` means the attribute is absent (`hasattr` is false). -/
def PyModule (α : Type) : Type := String → Option (Attr α)

/-- `setattr(m, name, a)`. -/
def setattrMod {α : Type} (m : PyModule α) (name : String) (a : Attr α) :
    PyModule α :=
  fun n => if n = name then some a else m n

/-- One iteration of the patch loop: if the module has attribute `name`
and it is callable, rebind it to its `_wrap_task_id` wrapper; otherwise
leave the module unchanged. -/
def patchName {α : Type} (m : PyModule α) (name : String) : PyModule α :=
  match m name with
  | some (Attr.callable f) => setattrMod m name (Attr.callable (wrap_task_id f))
  | some (Attr.value _) => m
  | Option.none => m

/-- `_patch_gradio_ui()`. Its input is the outcome of
`from docling_serve import gradio_ui`: either the module or a raised
error. The first component of the output is the exception escaping the
procedure (`none` when it returns normally): the `except Exception:`
handler only catches errors that are instances of `Exception`. The second
component is the module state afterwards: patched over the two names
`process_url`, `process_file` in that order when the import succeeded,
untouched otherwise. -/
def patch_gradio_ui {α : Type} (importResult : Except PyErr (PyModule α)) :
    Option PyErr × Except PyErr (PyModule α) :=
  match importResult with
  | Except.error e =>
      if e.isException then (Option.none, Except.error e)
      else (some e, Except.error e)
  | Except.ok m =>
      (Option.none,
        Except.ok (patchName (patchName m "process_url") "process_file"))

/-- A canonical UUID string used by concrete witnesses. -/
def sampleUuid : String := "3fa85f64-5717-4562-b3fc-2c963f66afa6"

/-- A callable (of trivial argument type) that returns `sampleUuid` and
prints nothing, used by concrete witnesses. -/
def uuidFunc : Unit → CallResult :=
  fun _ => { output := [], result := Except.ok (PyVal.str sampleUuid) }

/-- Raised `ValueError` (an instance of `Exception`), used by witnesses. -/
def valueError : PyErr := { name := "ValueError", isException := true }

/-- A callable that prints one line and then raises, used by witnesses. -/
def raisingFunc : Unit → CallResult :=
  fun _ => { output := ["boom"], result := Except.error valueError }

/-- A callable returning `None`, used by witnesses. -/
def noneFunc : Unit → CallResult :=
  fun _ => { output := [], result := Except.ok PyVal.none }

/-- The identity probe: a callable returning its own argument, used to
observe which argument the wrapper forwards. -/
def identityFunc : PyVal → CallResult :=
  fun v => { output := [], result := Except.ok v }

/-- A callable that logs a line of its own and returns `sampleUuid`. -/
def loggingUuidFunc : Int → CallResult :=
  fun _ => { output := ["noise"], result := Except.ok (PyVal.str sampleUuid) }

/-- `KeyboardInterrupt` derives from `BaseException` but not `Exception`,
so `except Exception:` does not catch it. -/
def keyboardInterrupt : PyErr :=
  { name := "KeyboardInterrupt", isException := false }

/-- `SystemExit` derives from `BaseException` but not `Exception`. -/
def systemExit : PyErr := { name := "SystemExit", isException := false }

/-- `ModuleNotFoundError` is an instance of `Exception`. -/
def moduleNotFoundError : PyErr :=
  { name := "ModuleNotFoundError", isException := true }

/-- A module whose `process_url` is a non-callable value and which has no
other attribute, used by witnesses. -/
def valueOnlyModule : PyModule Unit :=
  fun n =>
    if n = "process_url" then some (Attr.value (PyVal.int 3)) else Option.none

/-- A module with a callable `process_url` and an unrelated attribute
`launch`, used by witnesses. -/
def fullModule : PyModule Unit :=
  fun n =>
    if n = "process_url" then some (Attr.callable uuidFunc)
    else if n = "launch" then some (Attr.value (PyVal.bool true))
    else Option.none

/-- The specification's characterisation of the task-identifier form:
five groups of hexadecimal digits of lengths 8, 4, 4, 4 and 12, separated
by single hyphens, with uppercase and lowercase digits both accepted. -/
def uuidSpecShape (s : String) : Prop :=
  ∃ a b c d e : List Char,
    s.data = a ++ ['-'] ++ b ++ ['-'] ++ c ++ ['-'] ++ d ++ ['-'] ++ e ∧
    a.length = 8 ∧ b.length = 4 ∧ c.length = 4 ∧ d.length = 4 ∧
    e.length = 12 ∧
    (a ++ b ++ c ++ d ++ e).all isHexDigitChar = true

theorem wrap_error {α : Type} (func : α → CallResult) (a : α) (e : PyErr)
    (h : (func a).result = Except.error e) :
    wrap_task_id func a = func a := by
  rcases hfa : func a with ⟨out, res⟩
  rw [hfa] at h
  obtain rfl : res = Except.error e := h
  simp [wrap_task_id, hfa]

theorem wrap_ok_str_match {α : Type} (func : α → CallResult) (a : α)
    (s : String) (h : (func a).result = Except.ok (PyVal.str s))
    (hm : TASK_ID_PATTERN_fullmatch s = true) :
    wrap_task_id func a =
      { output := (func a).output ++ ["docling_task_id=" ++ s],
        result := Except.ok (PyVal.str s) } := by
  rcases hfa : func a with ⟨out, res⟩
  rw [hfa] at h
  obtain rfl : res = Except.ok (PyVal.str s) := h
  simp [wrap_task_id, hfa, hm]

theorem wrap_ok_nomatch {α : Type} (func : α → CallResult) (a : α) (v : PyVal)
    (h : (func a).result = Except.ok v)
    (hnm : ∀ s, v = PyVal.str s → TASK_ID_PATTERN_fullmatch s = false) :
    wrap_task_id func a = func a := by
  rcases hfa : func a with ⟨out, res⟩
  rw [hfa] at h
  obtain rfl : res = Except.ok v := h
  cases v with
  | str s => simp [wrap_task_id, hfa, hnm s rfl]
  | none => simp [wrap_task_id, hfa]
  | int n => simp [wrap_task_id, hfa]
  | bool b => simp [wrap_task_id, hfa]
  | list xs => simp [wrap_task_id, hfa]
  | obj t => simp [wrap_task_id, hfa]

theorem wrap_result_eq {α : Type} (func : α → CallResult) (a : α) :
    (wrap_task_id func a).result = (func a).result := by
  cases hr : (func a).result with
  | error e => rw [wrap_error func a e hr, hr]
  | ok v =>
      by_cases hstr : ∃ s, v = PyVal.str s ∧ TASK_ID_PATTERN_fullmatch s = true
      · obtain ⟨s, rfl, hm⟩ := hstr
        rw [wrap_ok_str_match func a s hr hm]
      · push_neg at hstr
        have hnm : ∀ s, v = PyVal.str s → TASK_ID_PATTERN_fullmatch s = false :=
          fun s hs => by simpa using hstr s hs
        rw [wrap_ok_nomatch func a v hr hnm, hr]

/-- C1: for every wrapped callable and every call that returns a value `v`,
a line of the exact form `docling_task_id=<result>` is appended to standard
output if and only if `v` is a string fully matching `TASK_ID_PATTERN`;
for a non-string value or a non-matching string, the output is exactly the
output of the original call. -/
theorem tagged_line_iff_uuid {α : Type} (func : α → CallResult) (a : α)
    (v : PyVal) (h : (func a).result = Except.ok v) :
    ((∃ s, v = PyVal.str s ∧ TASK_ID_PATTERN_fullmatch s = true) ↔
      ∃ s, v = PyVal.str s ∧
        (wrap_task_id func a).output
          = (func a).output ++ ["docling_task_id=" ++ s]) ∧
    ((∀ s, v = PyVal.str s → TASK_ID_PATTERN_fullmatch s = false) →
      (wrap_task_id func a).output = (func a).output) := by
  constructor
  · constructor
    · rintro ⟨s, rfl, hm⟩
      exact ⟨s, rfl, by rw [wrap_ok_str_match func a s h hm]⟩
    · rintro ⟨s, rfl, hout⟩
      refine ⟨s, rfl, ?_⟩
      by_contra hm
      have hm' : TASK_ID_PATTERN_fullmatch s = false := by simpa using hm
      have hnm : ∀ s', PyVal.str s = PyVal.str s' →
          TASK_ID_PATTERN_fullmatch s' = false := by
        intro s' hs'
        injection hs' with hss
        rw [← hss]
        exact hm'
      rw [wrap_ok_nomatch func a _ h hnm] at hout
      simp at hout
  · intro hnm
    rw [wrap_ok_nomatch func a v h hnm]

/-- Witness for C1 at the concrete callable `uuidFunc`, which returns the
matching string `sampleUuid`. -/
theorem tagged_line_iff_uuid_witness :
    (uuidFunc ()).result = Except.ok (PyVal.str sampleUuid) ∧
    (((∃ s, PyVal.str sampleUuid = PyVal.str s ∧
          TASK_ID_PATTERN_fullmatch s = true) ↔
       ∃ s, PyVal.str sampleUuid = PyVal.str s ∧
         (wrap_task_id uuidFunc ()).output
           = (uuidFunc ()).output ++ ["docling_task_id=" ++ s]) ∧
     ((∀ s, PyVal.str sampleUuid = PyVal.str s →
         TASK_ID_PATTERN_fullmatch s = false) →
       (wrap_task_id uuidFunc ()).output = (uuidFunc ()).output)) :=
  ⟨rfl, tagged_line_iff_uuid uuidFunc () (PyVal.str sampleUuid) rfl⟩

/-- C2: the wrapper forwards the original callable's result unchanged
regardless of the match outcome, and passes its argument through untouched:
the identity probe called through the wrapper returns the very argument the
wrapper received. -/
theorem wrapper_forwards_args_and_result {α : Type} (func : α → CallResult)
    (a : α) :
    (wrap_task_id func a).result = (func a).result ∧
    ∀ v : PyVal, (wrap_task_id identityFunc v).result = Except.ok v :=
  ⟨wrap_result_eq func a, fun v => wrap_result_eq identityFunc v⟩

/-- C3: when the original callable raises, the wrapper propagates the
exception unchanged and produces no output line of its own. -/
theorem wrapper_propagates_exception {α : Type} (func : α → CallResult)
    (a : α) (e : PyErr) (h : (func a).result = Except.error e) :
    (wrap_task_id func a).result = Except.error e ∧
    (wrap_task_id func a).output = (func a).output :=
  ⟨(wrap_result_eq func a).trans h, by rw [wrap_error func a e h]⟩

/-- Witness for C3 at the concrete raising callable `raisingFunc`. -/
theorem wrapper_propagates_exception_witness :
    (raisingFunc ()).result = Except.error valueError ∧
    ((wrap_task_id raisingFunc ()).result = Except.error valueError ∧
     (wrap_task_id raisingFunc ()).output = (raisingFunc ()).output) :=
  ⟨rfl, wrapper_propagates_exception raisingFunc () valueError rfl⟩

/-- C7: wrapping twice still forwards the original result unchanged, and
each layer matches independently, so a fully matching string is tagged once
per layer (two identical lines). -/
theorem double_wrap_forwards_and_tags_twice {α : Type}
    (func : α → CallResult) (a : α) :
    (wrap_task_id (wrap_task_id func) a).result = (func a).result ∧
    ∀ s, (func a).result = Except.ok (PyVal.str s) →
      TASK_ID_PATTERN_fullmatch s = true →
      (wrap_task_id (wrap_task_id func) a).output
        = (func a).output
            ++ ["docling_task_id=" ++ s, "docling_task_id=" ++ s] := by
  constructor
  · rw [wrap_result_eq, wrap_result_eq]
  · intro s h hm
    have h1 : (wrap_task_id func a).result = Except.ok (PyVal.str s) :=
      (wrap_result_eq func a).trans h
    rw [wrap_ok_str_match (wrap_task_id func) a s h1 hm,
        wrap_ok_str_match func a s h hm]
    simp

/-- Witness for C7 at `uuidFunc`: the matching string is tagged twice. -/
theorem double_wrap_witness :
    (uuidFunc ()).result = Except.ok (PyVal.str sampleUuid) ∧
    TASK_ID_PATTERN_fullmatch sampleUuid = true ∧
    (wrap_task_id (wrap_task_id uuidFunc) ()).output
      = (uuidFunc ()).output
          ++ ["docling_task_id=" ++ sampleUuid,
              "docling_task_id=" ++ sampleUuid] :=
  ⟨rfl, by decide,
    (double_wrap_forwards_and_tags_twice uuidFunc ()).2 sampleUuid rfl
      (by decide)⟩

/-- C9: the lines the wrapper itself emits depend only on the returned
value: two calls of possibly different callables on different arguments
that return equal values produce the same emitted suffix. -/
theorem emission_determined_by_result {α β : Type} (f : α → CallResult)
    (g : β → CallResult) (a : α) (b : β) (v : PyVal)
    (hf : (f a).result = Except.ok v) (hg : (g b).result = Except.ok v) :
    (wrap_task_id f a).output.drop (f a).output.length
      = (wrap_task_id g b).output.drop (g b).output.length := by
  by_cases hstr : ∃ s, v = PyVal.str s ∧ TASK_ID_PATTERN_fullmatch s = true
  · obtain ⟨s, rfl, hm⟩ := hstr
    rw [wrap_ok_str_match f a s hf hm, wrap_ok_str_match g b s hg hm]
    simp [List.drop_left]
  · push_neg at hstr
    have hnm : ∀ s, v = PyVal.str s → TASK_ID_PATTERN_fullmatch s = false :=
      fun s hs => by simpa using hstr s hs
    rw [wrap_ok_nomatch f a v hf hnm, wrap_ok_nomatch g b v hg hnm]
    simp

/-- Witness for C9: two distinct callables, on distinct argument types and
values, returning the same matching string, emit the same suffix. -/
theorem emission_determined_by_result_witness :
    (loggingUuidFunc 7).result = Except.ok (PyVal.str sampleUuid) ∧
    (uuidFunc ()).result = Except.ok (PyVal.str sampleUuid) ∧
    (wrap_task_id loggingUuidFunc 7).output.drop
        (loggingUuidFunc 7).output.length
      = (wrap_task_id uuidFunc ()).output.drop (uuidFunc ()).output.length :=
  ⟨rfl, rfl,
    emission_determined_by_result loggingUuidFunc uuidFunc 7 ()
      (PyVal.str sampleUuid) rfl rfl⟩

/-- C10: whenever the original callable returns normally, the wrapper also
returns normally: the type test and the pattern match are total, so the
post-call path introduces no exception of its own. -/
theorem wrapper_returns_normally {α : Type} (func : α → CallResult) (a : α)
    (v : PyVal) (h : (func a).result = Except.ok v) :
    ∃ w, (wrap_task_id func a).result = Except.ok w :=
  ⟨v, (wrap_result_eq func a).trans h⟩

/-- Witness for C10 at a callable returning `None`. -/
theorem wrapper_returns_normally_witness :
    (noneFunc ()).result = Except.ok PyVal.none ∧
    ∃ w, (wrap_task_id noneFunc ()).result = Except.ok w :=
  ⟨rfl, wrapper_returns_normally noneFunc () PyVal.none rfl⟩

theorem patchName_ne {α : Type} (m : PyModule α) (name n : String)
    (h : n ≠ name) : patchName m name n = m n := by
  unfold patchName
  cases hm : m name with
  | none => rfl
  | some a =>
      cases a with
      | callable f => simp [setattrMod, h]
      | value v => rfl

theorem patchName_not_callable {α : Type} (m : PyModule α) (name : String)
    (h : m name = Option.none ∨ ∃ v, m name = some (Attr.value v)) :
    patchName m name = m := by
  unfold patchName
  rcases h with h | ⟨v, h⟩ <;> rw [h]

/-- C4 counterexample: an import that fails by raising `KeyboardInterrupt`
(an exception outside the `Exception` class) is not caught by the
`except Exception:` handler, so `_patch_gradio_ui` does not return
normally on that input. -/
theorem patch_raises_on_keyboard_interrupt :
    ¬ (patch_gradio_ui (Except.error keyboardInterrupt :
          Except PyErr (PyModule Unit))).fst = Option.none := by
  simp [patch_gradio_ui, keyboardInterrupt]

/-- C4 amended: if importing the target module fails by raising an
instance of `Exception` — the class the `except Exception:` handler
catches — the patch procedure returns normally, raising nothing and
modifying no module state. -/
theorem patch_silent_on_exception_failure {α : Type} (e : PyErr)
    (h : e.isException = true) :
    patch_gradio_ui (Except.error e : Except PyErr (PyModule α))
      = (Option.none, Except.error e) := by
  simp [patch_gradio_ui, h]

/-- Witness for the amended C4 at the concrete error
`ModuleNotFoundError`. -/
theorem patch_silent_on_exception_failure_witness :
    moduleNotFoundError.isException = true ∧
    patch_gradio_ui (Except.error moduleNotFoundError :
        Except PyErr (PyModule Unit))
      = (Option.none, Except.error moduleNotFoundError) :=
  ⟨rfl, patch_silent_on_exception_failure moduleNotFoundError rfl⟩

/-- C5 counterexample: the patch procedure can raise: an import failing
with `SystemExit` (outside the `Exception` class) escapes the handler. -/
theorem patch_raises_on_system_exit :
    ¬ (patch_gradio_ui (Except.error systemExit :
          Except PyErr (PyModule Unit))).fst = Option.none := by
  simp [patch_gradio_ui, systemExit]

/-- C5 amended: when the import succeeds, for each of the two patched
names, a missing or non-callable attribute is left with its binding
unchanged, and the procedure returns normally without raising. -/
theorem patch_skips_missing_or_noncallable {α : Type} (m : PyModule α)
    (name : String)
    (hn : name = "process_url" ∨ name = "process_file")
    (hskip : m name = Option.none ∨ ∃ v, m name = some (Attr.value v)) :
    (patch_gradio_ui (Except.ok m)).fst = Option.none ∧
    ∃ m', (patch_gradio_ui (Except.ok m)).snd = Except.ok m' ∧
      m' name = m name := by
  refine ⟨rfl, _, rfl, ?_⟩
  rcases hn with rfl | rfl
  · rw [patchName_ne _ _ _ (by decide)]
    exact congrFun (patchName_not_callable m "process_url" hskip) "process_url"
  · have h1 : patchName m "process_url" "process_file" = m "process_file" :=
      patchName_ne m "process_url" "process_file" (by decide)
    have h2 : patchName (patchName m "process_url") "process_file"
        = patchName m "process_url" :=
      patchName_not_callable _ "process_file" (by rw [h1]; exact hskip)
    rw [h2, h1]

/-- Witness for the amended C5: a module whose `process_url` is bound to a
non-callable value keeps that binding, and the procedure raises nothing. -/
theorem patch_skips_missing_or_noncallable_witness :
    ("process_url" = "process_url" ∨ "process_url" = "process_file") ∧
    (valueOnlyModule "process_url" = Option.none ∨
      ∃ v, valueOnlyModule "process_url" = some (Attr.value v)) ∧
    ((patch_gradio_ui (Except.ok valueOnlyModule)).fst = Option.none ∧
     ∃ m', (patch_gradio_ui (Except.ok valueOnlyModule)).snd = Except.ok m' ∧
       m' "process_url" = valueOnlyModule "process_url") :=
  ⟨Or.inl rfl, Or.inr ⟨PyVal.int 3, rfl⟩,
    patch_skips_missing_or_noncallable valueOnlyModule "process_url"
      (Or.inl rfl) (Or.inr ⟨PyVal.int 3, rfl⟩)⟩

/-- C8: patching mutates at most the two attributes `process_url` and
`process_file`: every other attribute of the module keeps its binding
(and the model has no state outside the module for the procedure to
touch). -/
theorem patch_frame {α : Type} (m : PyModule α) (n : String)
    (h1 : n ≠ "process_url") (h2 : n ≠ "process_file") :
    ∃ m', (patch_gradio_ui (Except.ok m)).snd = Except.ok m' ∧ m' n = m n := by
  refine ⟨_, rfl, ?_⟩
  rw [patchName_ne _ _ _ h2, patchName_ne _ _ _ h1]

/-- Witness for C8: the unrelated attribute `launch` of a module whose
`process_url` does get wrapped is untouched. -/
theorem patch_frame_witness :
    ("launch" ≠ "process_url") ∧ ("launch" ≠ "process_file") ∧
    ∃ m', (patch_gradio_ui (Except.ok fullModule)).snd = Except.ok m' ∧
      m' "launch" = fullModule "launch" :=
  ⟨by decide, by decide, patch_frame fullModule "launch" (by decide) (by decide)⟩

theorem consumeLit_eq_some (ch : Char) (cs rest : List Char) :
    consumeLit ch cs = some rest ↔ cs = ch :: rest := by
  cases cs with
  | nil => simp [consumeLit]
  | cons c cs' =>
      by_cases h : c = ch
      · subst h
        simp [consumeLit]
      · simp [consumeLit, h]

theorem consumeHex_eq_some :
    ∀ (n : Nat) (cs rest : List Char), consumeHex n cs = some rest ↔
      ∃ g, cs = g ++ rest ∧ g.length = n ∧ g.all isHexDigitChar = true := by
  intro n
  induction n with
  | zero =>
      intro cs rest
      constructor
      · intro h
        simp only [consumeHex, Option.some.injEq] at h
        exact ⟨[], by simp [h], rfl, rfl⟩
      · rintro ⟨g, hcs, hlen, _⟩
        have hg : g = [] := List.length_eq_zero.mp hlen
        subst hg
        simp [consumeHex, hcs]
  | succ n ih =>
      intro cs rest
      cases cs with
      | nil =>
          constructor
          · intro h
            simp [consumeHex] at h
          · rintro ⟨g, hcs, hlen, _⟩
            cases g with
            | nil => simp at hlen
            | cons x g' => simp at hcs
      | cons c cs' =>
          constructor
          · intro h
            simp only [consumeHex] at h
            by_cases hc : isHexDigitChar c
            · rw [if_pos hc] at h
              obtain ⟨g, hcs, hlen, hall⟩ := (ih cs' rest).mp h
              exact ⟨c :: g, by simp [hcs], by simp [hlen],
                by simp [List.all_cons, hall, hc]⟩
            · rw [if_neg hc] at h
              cases h
          · rintro ⟨g, hcs, hlen, hall⟩
            cases g with
            | nil => simp at hlen
            | cons x g' =>
                obtain ⟨rfl, hcs'⟩ : c = x ∧ cs' = g' ++ rest := by
                  simpa using hcs
                simp only [List.all_cons, Bool.and_eq_true] at hall
                simp only [List.length_cons, Nat.succ.injEq] at hlen
                simp only [consumeHex, if_pos hall.1]
                exact (ih cs' rest).mpr ⟨g', hcs', hlen, hall.2⟩

/-- C6: a string fully matches `TASK_ID_PATTERN` exactly when it consists
of five groups of hexadecimal digits of lengths 8, 4, 4, 4 and 12,
separated by single hyphens, with both uppercase and lowercase digits
accepted. -/
theorem fullmatch_iff_uuid_shape (s : String) :
    TASK_ID_PATTERN_fullmatch s = true ↔ uuidSpecShape s := by
  constructor
  · intro h
    have hc0 : ((((((((consumeHex 8 s.data).bind (consumeLit '-')).bind
        (consumeHex 4)).bind (consumeLit '-')).bind
        (consumeHex 4)).bind (consumeLit '-')).bind
        (consumeHex 4)).bind (consumeLit '-')).bind (consumeHex 12)
        = some [] := by
      simpa [TASK_ID_PATTERN_fullmatch] using h
    obtain ⟨u8, hc1, h9⟩ := Option.bind_eq_some.mp hc0
    obtain ⟨u7, hc2, h8⟩ := Option.bind_eq_some.mp hc1
    obtain ⟨u6, hc3, h7⟩ := Option.bind_eq_some.mp hc2
    obtain ⟨u5, hc4, h6⟩ := Option.bind_eq_some.mp hc3
    obtain ⟨u4, hc5, h5⟩ := Option.bind_eq_some.mp hc4
    obtain ⟨u3, hc6, h4⟩ := Option.bind_eq_some.mp hc5
    obtain ⟨u2, hc7, h3⟩ := Option.bind_eq_some.mp hc6
    obtain ⟨u1, h1, h2⟩ := Option.bind_eq_some.mp hc7
    obtain ⟨a, hsa, ha, haal⟩ := (consumeHex_eq_some 8 s.data u1).mp h1
    have hu1 : u1 = '-' :: u2 := (consumeLit_eq_some '-' u1 u2).mp h2
    obtain ⟨b, hub, hb, hbal⟩ := (consumeHex_eq_some 4 u2 u3).mp h3
    have hu3 : u3 = '-' :: u4 := (consumeLit_eq_some '-' u3 u4).mp h4
    obtain ⟨c, huc, hcl, hcal⟩ := (consumeHex_eq_some 4 u4 u5).mp h5
    have hu5 : u5 = '-' :: u6 := (consumeLit_eq_some '-' u5 u6).mp h6
    obtain ⟨d, hud, hd, hdal⟩ := (consumeHex_eq_some 4 u6 u7).mp h7
    have hu7 : u7 = '-' :: u8 := (consumeLit_eq_some '-' u7 u8).mp h8
    obtain ⟨e, hue, he, heal⟩ := (consumeHex_eq_some 12 u8 []).mp h9
    subst hu1 hu3 hu5 hu7
    subst hub huc hud hue
    refine ⟨a, b, c, d, e, ?_, ha, hb, hcl, hd, he, ?_⟩
    · simp [hsa]
    · simp [List.all_append, haal, hbal, hcal, hdal, heal]
  · rintro ⟨a, b, c, d, e, hs, ha, hb, hc, hd, he, hall⟩
    simp only [List.all_append, Bool.and_eq_true] at hall
    obtain ⟨⟨⟨⟨haal, hbal⟩, hcal⟩, hdal⟩, heal⟩ := hall
    have h1 : consumeHex 8 s.data
        = some ('-' :: (b ++ ('-' :: (c ++ ('-' :: (d ++ ('-' :: e))))))) :=
      (consumeHex_eq_some 8 s.data _).mpr ⟨a, by simp [hs], ha, haal⟩
    have h2 : consumeLit '-'
        ('-' :: (b ++ ('-' :: (c ++ ('-' :: (d ++ ('-' :: e)))))))
        = some (b ++ ('-' :: (c ++ ('-' :: (d ++ ('-' :: e)))))) :=
      (consumeLit_eq_some '-' _ _).mpr rfl
    have h3 : consumeHex 4 (b ++ ('-' :: (c ++ ('-' :: (d ++ ('-' :: e))))))
        = some ('-' :: (c ++ ('-' :: (d ++ ('-' :: e))))) :=
      (consumeHex_eq_some 4 _ _).mpr ⟨b, rfl, hb, hbal⟩
    have h4 : consumeLit '-' ('-' :: (c ++ ('-' :: (d ++ ('-' :: e)))))
        = some (c ++ ('-' :: (d ++ ('-' :: e)))) :=
      (consumeLit_eq_some '-' _ _).mpr rfl
    have h5 : consumeHex 4 (c ++ ('-' :: (d ++ ('-' :: e))))
        = some ('-' :: (d ++ ('-' :: e))) :=
      (consumeHex_eq_some 4 _ _).mpr ⟨c, rfl, hc, hcal⟩
    have h6 : consumeLit '-' ('-' :: (d ++ ('-' :: e)))
        = some (d ++ ('-' :: e)) :=
      (consumeLit_eq_some '-' _ _).mpr rfl
    have h7 : consumeHex 4 (d ++ ('-' :: e)) = some ('-' :: e) :=
      (consumeHex_eq_some 4 _ _).mpr ⟨d, rfl, hd, hdal⟩
    have h8 : consumeLit '-' ('-' :: e) = some e :=
      (consumeLit_eq_some '-' _ _).mpr rfl
    have h9 : consumeHex 12 e = some [] :=
      (consumeHex_eq_some 12 e []).mpr ⟨e, by simp, he, heal⟩
    simp [TASK_ID_PATTERN_fullmatch, h1, h2, h3, h4, h5, h6, h7, h8, h9]
